import Mathlib

/-!
Shallow embedding of the e-commerce backend's document models and route
handlers, with theorems about their derived-field invariants, algebraic
properties and error behaviour.

Monetary amounts, quantities and ratings are JavaScript numbers in the
source; they are embedded as rationals.  Object ids are embedded as
naturals (`ObjectId.equals`/`toString` comparison becomes equality).
Timestamps (`lastModified`, `createdAt`, `lastLogin`, ...) and fields the
modelled operations never touch are not carried.  A Mongoose `save` runs
the schema's pre-save hook and persists the document; persistence is
modelled as the function from the in-memory document to the stored one.
-/

namespace ECommerce

/-- A cart line item (`cartItemSchema` in `Cart.js`). -/
structure CartItem where
  productId : Nat
  quantity : ℚ
  price : ℚ
  totalPrice : ℚ
deriving DecidableEq

/-- A shopping cart (`cartSchema` in `Cart.js`). -/
structure Cart where
  userId : Nat
  items : List CartItem
  subtotal : ℚ
  tax : ℚ
  shipping : ℚ
  discount : ℚ
  total : ℚ
  totalItems : ℚ
  couponCode : Option String
  isActive : Bool
deriving DecidableEq

/-- `cartSchema.pre('save')` (`Cart.js` lines 87-110): recompute each
line's `totalPrice`, the `subtotal`, the `totalItems`, and the `total`
(`subtotal + tax + shipping - discount`, floored at 0). -/
def cartPreSave (c : Cart) : Cart :=
  let items := c.items.map (fun it => { it with totalPrice := it.price * it.quantity })
  let subtotal := (items.map (fun it => it.totalPrice)).sum
  let totalItems := (items.map (fun it => it.quantity)).sum
  let total := subtotal + c.tax + c.shipping - c.discount
  let total := if total < 0 then 0 else total
  { c with items := items, subtotal := subtotal, totalItems := totalItems, total := total }

/-- `cart.save()`: the pre-save hook runs, then the document is stored. -/
def cartSave (c : Cart) : Cart := cartPreSave c

/-- `cartSchema.methods.addItem(productId, quantity = 1, price)`
(`Cart.js` lines 113-134): increment quantity and overwrite price if the
product is already in the cart, else push a new item; then save. -/
def Cart.addItem (c : Cart) (productId : Nat) (quantity : ℚ := 1) (price : ℚ) : Cart :=
  match c.items.findIdx? (fun it => it.productId == productId) with
  | some i =>
      cartSave { c with
        items := c.items.modify (fun it => { it with quantity := it.quantity + quantity, price := price }) i }
  | none =>
      cartSave { c with
        items := c.items ++ [{ productId := productId, quantity := quantity, price := price, totalPrice := price * quantity }] }

/-- `cartSchema.methods.updateItemQuantity(productId, quantity)`
(`Cart.js` lines 137-154): if the item is found, remove it when the new
quantity is ≤ 0, else set its quantity, and save; if not found, throw
`'Item not found in cart'` without saving. -/
def Cart.updateItemQuantity (c : Cart) (productId : Nat) (quantity : ℚ) : Except String Cart :=
  match c.items.findIdx? (fun it => it.productId == productId) with
  | some i =>
      if quantity ≤ 0 then
        Except.ok (cartSave { c with items := c.items.eraseIdx i })
      else
        Except.ok (cartSave { c with items := c.items.modify (fun it => { it with quantity := quantity }) i })
  | none => Except.error "Item not found in cart"

/-- `cartSchema.methods.removeItem(productId)` (`Cart.js` lines 157-162). -/
def Cart.removeItem (c : Cart) (productId : Nat) : Cart :=
  cartSave { c with items := c.items.filter (fun it => ¬ it.productId == productId) }

/-- `cartSchema.methods.clearCart()` (`Cart.js` lines 165-170). -/
def Cart.clearCart (c : Cart) : Cart :=
  cartSave { c with items := [], couponCode := none, discount := 0 }

/-- `cartSchema.methods.applyCoupon(couponCode, discountAmount)`
(`Cart.js` lines 173-177). -/
def Cart.applyCoupon (c : Cart) (couponCode : String) (discountAmount : ℚ) : Cart :=
  cartSave { c with couponCode := some couponCode, discount := discountAmount }

/-- `cartSchema.methods.removeCoupon()` (`Cart.js` lines 180-184). -/
def Cart.removeCoupon (c : Cart) : Cart :=
  cartSave { c with couponCode := none, discount := 0 }

/-- The derived-field invariant the spec states for persisted carts:
subtotal, totalItems and per-line totals agree with the items, and the
grand total is `max 0 (subtotal + tax + shipping - discount)`. -/
def cartInvariant (c : Cart) : Prop :=
  c.subtotal = (c.items.map (fun it => it.price * it.quantity)).sum ∧
  c.totalItems = (c.items.map (fun it => it.quantity)).sum ∧
  (∀ it ∈ c.items, it.totalPrice = it.price * it.quantity) ∧
  c.total = max 0 (c.subtotal + c.tax + c.shipping - c.discount)

theorem cartSave_invariant (c : Cart) : cartInvariant (cartSave c) := by
  unfold cartSave cartPreSave cartInvariant
  refine ⟨?_, ?_, ?_, ?_⟩
  · simp [List.map_map, Function.comp_def]
  · simp [List.map_map, Function.comp_def]
  · intro it hit
    rcases List.mem_map.1 hit with ⟨a, -, rfl⟩
    rfl
  · simp only [List.map_map, Function.comp_def]
    rw [max_def]
    split <;> split <;> first | rfl | linarith

/-- A concrete cart used to witness the theorems below. -/
def sampleCart : Cart :=
  { userId := 1
    items := [{ productId := 7, quantity := 2, price := 5, totalPrice := 999 }]
    subtotal := 42
    tax := 2
    shipping := 5
    discount := 40
    total := 123
    totalItems := 9
    couponCode := some "SAVE"
    isActive := true }

/-- C1: after any persist — a direct save, `addItem`, a successful
`updateItemQuantity`, `removeItem`, `clearCart`, `applyCoupon` or
`removeCoupon` — the stored cart's subtotal is the sum of price×quantity
over its items, its totalItems is the sum of quantities, every line's
totalPrice is its price×quantity, and its total is
`max 0 (subtotal + tax + shipping - discount)`, regardless of whatever
values those fields held before the save. -/
theorem cart_totals_recomputed_on_persist (c : Cart) (productId : Nat)
    (quantity price discountAmount : ℚ) (couponCode : String) :
    cartInvariant (cartSave c) ∧
    cartInvariant (c.addItem productId quantity price) ∧
    (∀ c₂, c.updateItemQuantity productId quantity = Except.ok c₂ → cartInvariant c₂) ∧
    cartInvariant (c.removeItem productId) ∧
    cartInvariant c.clearCart ∧
    cartInvariant (c.applyCoupon couponCode discountAmount) ∧
    cartInvariant c.removeCoupon := by
  refine ⟨cartSave_invariant c, ?_, ?_, cartSave_invariant _, cartSave_invariant _,
    cartSave_invariant _, cartSave_invariant _⟩
  · unfold Cart.addItem
    cases c.items.findIdx? (fun it => it.productId == productId) <;> exact cartSave_invariant _
  · intro c₂ h
    unfold Cart.updateItemQuantity at h
    split at h
    · split at h
      · cases h; exact cartSave_invariant _
      · cases h; exact cartSave_invariant _
    · cases h

/-- Witness for C1 at a concrete cart: the update hypothesis is
discharged by evaluating `updateItemQuantity 7 0` on `sampleCart`. -/
theorem cart_totals_recomputed_on_persist_witness :
    sampleCart.updateItemQuantity 7 0 = Except.ok (cartSave { sampleCart with items := [] }) ∧
    cartInvariant (cartSave { sampleCart with items := [] }) ∧
    cartInvariant (sampleCart.addItem 7 0 4) := by
  have h := cart_totals_recomputed_on_persist sampleCart 7 0 4 6 "X"
  exact ⟨by rfl, h.2.2.1 _ (by rfl), h.2.1⟩

/-- C10: `clearCart` empties the items and resets the coupon code and
discount but leaves tax and shipping unchanged, so the persisted cart has
subtotal 0, totalItems 0 and total `max 0 (tax + shipping)` — which is
nonzero whenever `tax + shipping > 0`. -/
theorem clearCart_keeps_tax_and_shipping (c : Cart) :
    c.clearCart.items = [] ∧
    c.clearCart.couponCode = none ∧
    c.clearCart.discount = 0 ∧
    c.clearCart.tax = c.tax ∧
    c.clearCart.shipping = c.shipping ∧
    c.clearCart.subtotal = 0 ∧
    c.clearCart.totalItems = 0 ∧
    c.clearCart.total = max 0 (c.tax + c.shipping) ∧
    (0 < c.tax + c.shipping → c.clearCart.total ≠ 0) := by
  unfold Cart.clearCart cartSave cartPreSave
  refine ⟨rfl, rfl, rfl, rfl, rfl, rfl, rfl, ?_, ?_⟩
  · simp only [List.map_nil, List.sum_nil, zero_add, sub_zero]
    rw [max_def]
    split <;> split <;> first | rfl | linarith
  · intro hpos
    simp only [List.map_nil, List.sum_nil, zero_add, sub_zero]
    rw [if_neg (by linarith)]
    exact ne_of_gt hpos

/-- Witness for C10 at `sampleCart` (tax 2, shipping 5). -/
theorem clearCart_keeps_tax_and_shipping_witness :
    0 < sampleCart.tax + sampleCart.shipping ∧ sampleCart.clearCart.total ≠ 0 := by
  have h := clearCart_keeps_tax_and_shipping sampleCart
  exact ⟨by norm_num [sampleCart], h.2.2.2.2.2.2.2.2 (by norm_num [sampleCart])⟩

theorem countP_eq_zero_of_countP_cons_le_one {α : Type} {p : α → Bool} {a : α}
    {t : List α} (hpa : p a = true) (h : (a :: t).countP p ≤ 1) :
    ∀ x ∈ t, ¬ p x = true := by
  intro x hx
  have := List.countP_cons_of_pos (p := p) t hpa
  have hz : t.countP p = 0 := by omega
  exact (List.countP_eq_zero.1 hz) x hx

theorem eraseIdx_findIdx?_of_countP_le_one {α : Type} (p : α → Bool) :
    ∀ (l : List α) (i : Nat), l.countP p ≤ 1 → l.findIdx? p = some i →
      l.eraseIdx i = l.filter (fun a => !(p a)) := by
  intro l
  induction l with
  | nil => intro i _ hfind; simp at hfind
  | cons a t ih =>
      intro i hcount hfind
      rw [List.findIdx?_cons] at hfind
      by_cases hpa : p a = true
      · rw [if_pos hpa] at hfind
        cases hfind
        have hall : ∀ x ∈ t, ¬ p x = true := countP_eq_zero_of_countP_cons_le_one hpa hcount
        simp only [List.eraseIdx_cons_zero, List.filter_cons, hpa, Bool.not_true]
        exact (List.filter_eq_self.2 (by intro x hx; simp [hall x hx])).symm
      · rw [if_neg hpa, List.findIdx?_succ] at hfind
        rcases Option.map_eq_some'.1 hfind with ⟨j, hj, rfl⟩
        have hcount' : t.countP p ≤ 1 := by
          rwa [List.countP_cons_of_neg (p := p) t (by simpa using hpa)] at hcount
        simp [List.eraseIdx_cons_succ, List.filter_cons,
          (by simpa using hpa : p a = false), Bool.not_false, ih j hcount' hj]

theorem modify_findIdx?_of_countP_le_one {α : Type} (p : α → Bool) (f : α → α) :
    ∀ (l : List α) (i : Nat), l.countP p ≤ 1 → l.findIdx? p = some i →
      l.modify f i = l.map (fun a => if p a then f a else a) := by
  intro l
  induction l with
  | nil => intro i _ hfind; simp at hfind
  | cons a t ih =>
      intro i hcount hfind
      rw [List.findIdx?_cons] at hfind
      by_cases hpa : p a = true
      · rw [if_pos hpa] at hfind
        cases hfind
        have hall : ∀ x ∈ t, ¬ p x = true := countP_eq_zero_of_countP_cons_le_one hpa hcount
        simp only [List.modify, List.modifyTailIdx, List.modifyHead_cons, List.map_cons, hpa,
          if_true]
        rw [List.map_congr_left (g := id) (by intro x hx; simp [hall x hx]), List.map_id]
      · rw [if_neg hpa, List.findIdx?_succ] at hfind
        rcases Option.map_eq_some'.1 hfind with ⟨j, hj, rfl⟩
        have hcount' : t.countP p ≤ 1 := by
          rwa [List.countP_cons_of_neg (p := p) t (by simpa using hpa)] at hcount
        have hstep : List.modify f (j + 1) (a :: t) = a :: List.modify f j t := by
          simp [List.modify, List.modifyTailIdx]
        rw [hstep, ih j hcount' hj]
        simp [(by simpa using hpa : p a = false)]

/-- C4: `updateItemQuantity` on a cart whose items mention the product at
most once (which every cart built by `addItem` satisfies, since `addItem`
merges duplicates): when no item matches the product it fails with
`'Item not found in cart'` and nothing is saved; when an item matches,
quantity ≤ 0 removes that item and saves, and quantity > 0 sets that
item's quantity and saves. -/
theorem updateItemQuantity_spec (c : Cart) (productId : Nat) (quantity : ℚ)
    (huniq : c.items.countP (fun it => it.productId == productId) ≤ 1) :
    ((∀ it ∈ c.items, it.productId ≠ productId) →
      c.updateItemQuantity productId quantity = Except.error "Item not found in cart") ∧
    ((∃ it ∈ c.items, it.productId = productId) → quantity ≤ 0 →
      c.updateItemQuantity productId quantity =
        Except.ok (cartSave { c with
          items := c.items.filter (fun it => !(it.productId == productId)) })) ∧
    ((∃ it ∈ c.items, it.productId = productId) → 0 < quantity →
      c.updateItemQuantity productId quantity =
        Except.ok (cartSave { c with
          items := c.items.map (fun it =>
            if it.productId == productId then { it with quantity := quantity } else it) })) := by
  refine ⟨?_, ?_, ?_⟩
  · intro hnone
    have hfind : c.items.findIdx? (fun it => it.productId == productId) = none :=
      List.findIdx?_eq_none_iff.2 (by intro x hx; simpa using hnone x hx)
    unfold Cart.updateItemQuantity
    rw [hfind]
  · intro hmem hq
    rcases hmem with ⟨it, hit, hpid⟩
    have hsome : (c.items.findIdx? (fun it => it.productId == productId)).isSome := by
      rw [List.findIdx?_isSome]
      exact List.any_eq_true.2 ⟨it, hit, by simp [hpid]⟩
    rcases Option.isSome_iff_exists.1 hsome with ⟨i, hi⟩
    unfold Cart.updateItemQuantity
    simp only [hi]
    rw [if_pos hq,
      eraseIdx_findIdx?_of_countP_le_one (fun it => it.productId == productId) c.items i huniq hi]
  · intro hmem hq
    rcases hmem with ⟨it, hit, hpid⟩
    have hsome : (c.items.findIdx? (fun it => it.productId == productId)).isSome := by
      rw [List.findIdx?_isSome]
      exact List.any_eq_true.2 ⟨it, hit, by simp [hpid]⟩
    rcases Option.isSome_iff_exists.1 hsome with ⟨i, hi⟩
    unfold Cart.updateItemQuantity
    simp only [hi]
    rw [if_neg (not_le.2 hq),
      modify_findIdx?_of_countP_le_one (fun it => it.productId == productId)
        (fun it => { it with quantity := quantity }) c.items i huniq hi]

/-- Witness for C4 on `sampleCart`: an absent product (9) fails with the
not-found error, and product 7 is removed at quantity 0 and updated at
quantity 5. -/
theorem updateItemQuantity_spec_witness :
    sampleCart.updateItemQuantity 9 1 = Except.error "Item not found in cart" ∧
    sampleCart.updateItemQuantity 7 0 =
      Except.ok (cartSave { sampleCart with
        items := sampleCart.items.filter (fun it => !(it.productId == 7)) }) ∧
    sampleCart.updateItemQuantity 7 5 =
      Except.ok (cartSave { sampleCart with
        items := sampleCart.items.map (fun it =>
          if it.productId == 7 then { it with quantity := 5 } else it) }) := by
  have h₉ := updateItemQuantity_spec sampleCart 9 1 (by decide)
  have h₇ := updateItemQuantity_spec sampleCart 7 0 (by decide)
  have h₅ := updateItemQuantity_spec sampleCart 7 5 (by decide)
  exact ⟨h₉.1 (by decide), h₇.2.1 (by decide) (by norm_num),
    h₅.2.2 (by decide) (by norm_num)⟩

theorem map_productId_modify (f : CartItem → CartItem)
    (hf : ∀ it, (f it).productId = it.productId) :
    ∀ (l : List CartItem) (i : Nat),
      (l.modify f i).map (fun it => it.productId) = l.map (fun it => it.productId) := by
  intro l
  induction l with
  | nil => intro i; cases i <;> simp [List.modify, List.modifyTailIdx]
  | cons a t ih =>
      intro i
      cases i with
      | zero => simp [List.modify, List.modifyTailIdx, hf]
      | succ j =>
          have hstep : List.modify f (j + 1) (a :: t) = a :: List.modify f j t := by
            simp [List.modify, List.modifyTailIdx]
          rw [hstep]
          simp [ih j]

/-- Supporting fact for the uniqueness hypothesis of the
`updateItemQuantity` theorem: `addItem` keeps the items' product ids
pairwise distinct — it merges into the existing line when the product is
already present and appends a fresh id otherwise (and every other cart
operation only removes or rewrites lines in place), so every cart the
model builds from the empty cart satisfies that hypothesis. -/
theorem addItem_preserves_distinct_productIds (c : Cart) (productId : Nat)
    (quantity price : ℚ)
    (h : (c.items.map (fun it => it.productId)).Nodup) :
    ((c.addItem productId quantity price).items.map (fun it => it.productId)).Nodup := by
  have hsave : ∀ c', ((cartSave c').items.map (fun it => it.productId)) =
      c'.items.map (fun it => it.productId) := by
    intro c'
    simp [cartSave, cartPreSave, List.map_map, Function.comp_def]
  unfold Cart.addItem
  cases hf : c.items.findIdx? (fun it => it.productId == productId) with
  | some i =>
      simp only [hf, hsave]
      rw [map_productId_modify
        (fun it => { it with quantity := it.quantity + quantity, price := price })
        (fun it => rfl) c.items i]
      exact h
  | none =>
      simp only [hf, hsave]
      have hnot : productId ∉ c.items.map (fun it => it.productId) := by
        intro hmem
        rcases List.mem_map.1 hmem with ⟨it, hit, hpid⟩
        have := List.findIdx?_eq_none_iff.1 hf it hit
        simp [hpid] at this
      simp [List.nodup_append, h, hnot]

/-- An embedded product review (`reviewSchema` in `Product.js`). -/
structure Review where
  user : Nat
  rating : ℚ
  comment : String
  helpful : ℚ
deriving DecidableEq

/-- A catalog product (`productSchema` in `Product.js`), restricted to
the fields the modelled operations read or write. -/
structure Product where
  name : String
  description : String
  price : ℚ
  category : String
  subcategory : Option String
  stock : ℚ
  rating : ℚ
  reviewCount : Nat
  reviews : List Review
  isActive : Bool
deriving DecidableEq

/-- JavaScript's `Math.round`: nearest integer, halves toward `+∞`. -/
def jsRound (x : ℚ) : ℤ := (x + 1/2).floor

/-- `productSchema.pre('save')` (`Product.js` lines 147-157): recompute
`rating` (`Math.round((totalRating / reviews.length) * 10) / 10`) and
`reviewCount`; both are 0 when there are no reviews. -/
def productPreSave (p : Product) : Product :=
  if p.reviews.length > 0 then
    let totalRating := (p.reviews.map (fun review => review.rating)).sum
    { p with rating := (jsRound (totalRating / (p.reviews.length : ℚ) * 10) : ℚ) / 10,
             reviewCount := p.reviews.length }
  else
    { p with rating := 0, reviewCount := 0 }

/-- `product.save()`: the pre-save hook runs, then the document is stored. -/
def productSave (p : Product) : Product := productPreSave p

/-- `productSchema.methods.addReview(userId, rating, comment)`
(`Product.js` lines 175-187): drop any existing review by the same user,
push the new one (comment defaulting to the empty string), and save. -/
def Product.addReview (p : Product) (userId : Nat) (rating : ℚ) (comment : Option String) : Product :=
  let reviews := p.reviews.filter (fun review => !(review.user == userId))
  productSave { p with
    reviews := reviews ++ [{ user := userId, rating := rating, comment := comment.getD "", helpful := 0 }] }

theorem productSave_reviews (p : Product) : (productSave p).reviews = p.reviews := by
  obtain ⟨nm, ds, pr, ct, sct, st, rt, rc, rv, ia⟩ := p
  by_cases h : rv.length > 0 <;> simp [productSave, productPreSave, h]

theorem addReview_reviews (p : Product) (u : Nat) (r : ℚ) (c : Option String) :
    (p.addReview u r c).reviews =
      p.reviews.filter (fun review => !(review.user == u)) ++ [⟨u, r, c.getD "", 0⟩] := by
  unfold Product.addReview
  rw [productSave_reviews]

/-- The mean of a list of review ratings, as a rational. -/
def reviewMean (reviews : List Review) : ℚ :=
  (reviews.map (fun review => review.rating)).sum / (reviews.length : ℚ)

/-- Rounding to one decimal place, with JavaScript `Math.round` ties. -/
def roundToOneDecimal (x : ℚ) : ℚ := (jsRound (x * 10) : ℚ) / 10

/-- C2: after any persist the product's `rating` is the mean of its
embedded reviews' ratings rounded to one decimal place (0 when there are
no reviews) and `reviewCount` is the number of embedded reviews; the
right-hand sides depend only on `reviews`, so caller-supplied values for
the two fields are always overwritten. -/
theorem product_rating_recomputed_on_persist (p : Product) :
    (productSave p).rating =
      (if p.reviews = [] then 0 else roundToOneDecimal (reviewMean p.reviews)) ∧
    (productSave p).reviewCount = p.reviews.length := by
  obtain ⟨nm, ds, pr, ct, sct, st, rt, rc, rv, ia⟩ := p
  cases rv with
  | nil => simp [productSave, productPreSave]
  | cons a l =>
      simp [productSave, productPreSave, roundToOneDecimal, reviewMean, jsRound]

/-- C3: `addReview` is idempotent by user — a second call by the same
user replaces the first outright, the product then carries exactly one
review by that user (with the latest rating and comment), and reviews by
other users are untouched. -/
theorem addReview_idempotent_by_user (p : Product) (u : Nat) (r₁ r₂ : ℚ)
    (c₁ c₂ : Option String) :
    (p.addReview u r₁ c₁).addReview u r₂ c₂ = p.addReview u r₂ c₂ ∧
    (p.addReview u r₂ c₂).reviews.filter (fun review => review.user == u) =
      [⟨u, r₂, c₂.getD "", 0⟩] ∧
    (p.addReview u r₂ c₂).reviews.filter (fun review => !(review.user == u)) =
      p.reviews.filter (fun review => !(review.user == u)) := by
  refine ⟨?_, ?_, ?_⟩
  · obtain ⟨nm, ds, pr, ct, sct, st, rt, rc, rv, ia⟩ := p
    simp [Product.addReview, productSave, productPreSave, List.filter_append,
      List.filter_filter, Bool.and_self]
  · rw [addReview_reviews]
    simp [List.filter_filter]
  · rw [addReview_reviews]
    simp [List.filter_filter]

/-- JavaScript truthiness of an optional numeric value: absent, 0 (and
NaN, which has no rational counterpart) are falsy. -/
def truthyNum : Option ℚ → Bool
  | none => false
  | some v => v ≠ 0

/-- JavaScript truthiness of an optional string value: absent and the
empty string are falsy. -/
def truthyStr : Option String → Bool
  | none => false
  | some s => s ≠ ""

/-- The `filters` argument of `productSchema.statics.searchProducts`. -/
structure SearchFilters where
  category : Option String := none
  subcategory : Option String := none
  minPrice : Option ℚ := none
  maxPrice : Option ℚ := none
  inStock : Bool := false
deriving DecidableEq

/-- A MongoDB price clause (`searchQuery.price` with `$gte`/`$lte`). -/
structure PriceClause where
  gte : Option ℚ := none
  lte : Option ℚ := none
deriving DecidableEq

/-- The MongoDB query object built by `searchProducts`. -/
structure SearchQuery where
  isActive : Bool
  text : Option String := none
  category : Option String := none
  subcategory : Option String := none
  price : Option PriceClause := none
  stockGtZero : Bool := false
deriving DecidableEq

/-- `productSchema.statics.searchProducts(query, filters)` (`Product.js`
lines 222-245), restricted to the query object it builds (sort selection
is not modelled; no claim concerns it).  Note the JavaScript truthiness
tests on `filters.minPrice` / `filters.maxPrice`. -/
def searchProductsQuery (query : Option String) (filters : SearchFilters) : SearchQuery :=
  let sq : SearchQuery := { isActive := true }
  let sq := if truthyStr query then { sq with text := query } else sq
  let sq := if truthyStr filters.category then { sq with category := filters.category } else sq
  let sq := if truthyStr filters.subcategory then { sq with subcategory := filters.subcategory } else sq
  let sq := if truthyNum filters.minPrice || truthyNum filters.maxPrice then
      { sq with price := some {
          gte := if truthyNum filters.minPrice then filters.minPrice else none,
          lte := if truthyNum filters.maxPrice then filters.maxPrice else none } }
    else sq
  if filters.inStock then { sq with stockGtZero := true } else sq

/-- The lower price bound the built query imposes, if any. -/
def SearchQuery.gteBound (sq : SearchQuery) : Option ℚ :=
  match sq.price with
  | none => none
  | some pc => pc.gte

/-- The upper price bound the built query imposes, if any. -/
def SearchQuery.lteBound (sq : SearchQuery) : Option ℚ :=
  match sq.price with
  | none => none
  | some pc => pc.lte

/-- Counterexample to C5: with `minPrice` supplied as 0 the built query
imposes no lower price bound at all — with `maxPrice` also supplied only
the upper bound is set, and with `minPrice` alone the whole price clause
is absent. -/
theorem searchProducts_minPrice_zero_counterexample :
    ¬ ((searchProductsQuery none
        { minPrice := some 0, maxPrice := some 10 }).gteBound = some 0) ∧
    (searchProductsQuery none
        { minPrice := some 0, maxPrice := some 10 }).lteBound = some 10 ∧
    (searchProductsQuery none { minPrice := some 0 }).price = none := by decide

/-- C5 (amended): each price bound is applied independently, but only
when its filter value is JavaScript-truthy (supplied and nonzero); a
bound supplied as 0 is dropped, and the price clause is present exactly
when at least one of the two bounds is truthy. -/
theorem searchProducts_price_bounds (query : Option String) (filters : SearchFilters) :
    (searchProductsQuery query filters).gteBound =
      (if truthyNum filters.minPrice then filters.minPrice else none) ∧
    (searchProductsQuery query filters).lteBound =
      (if truthyNum filters.maxPrice then filters.maxPrice else none) ∧
    ((searchProductsQuery query filters).price = none ↔
      (truthyNum filters.minPrice || truthyNum filters.maxPrice) = false) := by
  unfold searchProductsQuery SearchQuery.gteBound SearchQuery.lteBound
  by_cases h₁ : truthyStr query <;> by_cases h₂ : truthyStr filters.category <;>
    by_cases h₃ : truthyStr filters.subcategory <;>
    by_cases h₄ : (truthyNum filters.minPrice || truthyNum filters.maxPrice) = true <;>
    by_cases h₅ : filters.inStock <;>
    simp_all [Bool.or_eq_true, not_or] <;>
    exact fun hmin => h₄.resolve_left (by simp [hmin])

/-- A user document (`userSchema` in the User model), restricted to the
fields the modelled handlers read or write. -/
structure User where
  name : String
  email : String
  password : String
  role : String
  googleId : Option String
  picture : Option String
  isActive : Bool
deriving DecidableEq

/-- An HTTP JSON response, restricted to the status code and the body
fields the claims are about (`success`, `message`, `field`). -/
structure ApiResponse where
  status : Nat
  success : Option Bool
  message : String
  field : Option String
deriving DecidableEq

/-- The body of a `POST /register` request, as destructured by the
handler (`const { name, email, password, role } = req.body`). -/
structure RegisterRequest where
  name : Option String := none
  email : Option String := none
  password : Option String := none
  role : Option String := none
deriving DecidableEq

/-- JavaScript `x || d` for an optional string `x`: the value when
truthy, else the default. -/
def truthyGetD (o : Option String) (d : String) : String :=
  match o with
  | some s => if s = "" then d else s
  | none => d

/-- JavaScript `email.toLowerCase()`: lower-case every character. -/
def toLowerCase (s : String) : String := String.mk (s.data.map Char.toLower)

/-- JavaScript `email.split('@')[0]`: the prefix before the first `@`
(the whole string when there is none). -/
def localPart (email : String) : String :=
  String.mk (email.data.takeWhile (fun c => !(c == '@')))

/-- The `userSchema` `role` enum: `['user', 'admin']`.  Saving a user
whose role is outside the enum fails Mongoose validation. -/
def roleAccepted (r : String) : Bool := r == "user" || r == "admin"

/-- `router.post('/register')` (`authRoutes.js` lines 17-84), modelled
as a function from the user store and request body to the response and
the new store.  Password hashing is an external collaborator, passed in
as `hash`.  A Mongoose validation failure on save (role outside the
enum) is caught by the handler's `catch` and reported as a 500. -/
def register (hash : String → String) (db : List User) (req : RegisterRequest) :
    ApiResponse × List User :=
  if !(truthyStr req.email) || !(truthyStr req.password) then
    ({ status := 400, success := some false, message := "Email and password are required",
       field := some (if !(truthyStr req.email) then "email" else "password") }, db)
  else
    let email := req.email.getD ""
    let password := req.password.getD ""
    if password.length < 6 then
      ({ status := 400, success := some false,
         message := "Password must be at least 6 characters long",
         field := some "password" }, db)
    else if db.any (fun u => u.email == toLowerCase email) then
      ({ status := 400, success := some false, message := "User already exists with this email",
         field := some "email" }, db)
    else
      let user : User :=
        { name := truthyGetD req.name (localPart email)
          email := toLowerCase email
          password := hash password
          role := truthyGetD req.role "user"
          googleId := none
          picture := none
          isActive := true }
      if roleAccepted user.role then
        ({ status := 201, success := some true, message := "User created successfully",
           field := none }, db ++ [user])
      else
        ({ status := 500, success := some false, message := "Server error during registration",
           field := none }, db)

/-- `router.post('/login')` (`authRoutes.js` lines 143-213), modelled as
a function from the user store and credentials to the response.  The
bcrypt comparison is an external collaborator, passed in as `compare`.
The `lastLogin` touch on success is a timestamp write and is not
modelled. -/
def login (compare : String → String → Bool) (db : List User)
    (email password : Option String) : ApiResponse :=
  if !(truthyStr email) || !(truthyStr password) then
    { status := 400, success := some false, message := "Email and password are required",
      field := some (if !(truthyStr email) then "email" else "password") }
  else
    match db.find? (fun u => u.email == toLowerCase (email.getD "")) with
    | none =>
        { status := 400, success := some false, message := "Invalid email or password",
          field := some "email" }
    | some user =>
        if !user.isActive then
          { status := 403, success := some false,
            message := "Account is deactivated. Please contact support.",
            field := some "account" }
        else if !(compare (password.getD "") user.password) then
          { status := 400, success := some false, message := "Invalid email or password",
            field := some "password" }
        else
          { status := 200, success := some true, message := "Login successful", field := none }

/-- A concrete user store entry used to witness the theorems below. -/
def sampleUser : User :=
  { name := "Alice"
    email := "a@x.com"
    password := "hpw"
    role := "user"
    googleId := none
    picture := none
    isActive := true }

/-- C6: a login whose email resolves to an active user but whose
password fails the bcrypt check gets the same 400 status and the same
generic `'Invalid email or password'` message as a login whose email
matches no user; the two responses differ only in the `field`
identifier (`'password'` vs `'email'`). -/
theorem login_wrong_password_matches_unknown_email (compare : String → String → Bool)
    (db : List User) (e₁ p₁ e₂ p₂ : String) (u : User)
    (he₁ : e₁ ≠ "") (hp₁ : p₁ ≠ "") (he₂ : e₂ ≠ "") (hp₂ : p₂ ≠ "")
    (hu : db.find? (fun v => v.email == toLowerCase e₁) = some u)
    (hact : u.isActive = true)
    (hpw : compare p₁ u.password = false)
    (hno : db.find? (fun v => v.email == toLowerCase e₂) = none) :
    (login compare db (some e₁) (some p₁)).status =
      (login compare db (some e₂) (some p₂)).status ∧
    (login compare db (some e₁) (some p₁)).message =
      (login compare db (some e₂) (some p₂)).message ∧
    (login compare db (some e₁) (some p₁)).field = some "password" ∧
    (login compare db (some e₂) (some p₂)).field = some "email" := by
  unfold login
  simp [truthyStr, he₁, hp₁, he₂, hp₂, hu, hno, hact, hpw]

/-- Witness for C6: `sampleUser` with a wrong password vs an unknown
email, compared under equality-as-bcrypt. -/
theorem login_wrong_password_matches_unknown_email_witness :
    (login (fun p h => p == h) [sampleUser] (some "a@x.com") (some "wrong")).status =
      (login (fun p h => p == h) [sampleUser] (some "b@x.com") (some "pw")).status ∧
    (login (fun p h => p == h) [sampleUser] (some "a@x.com") (some "wrong")).message =
      (login (fun p h => p == h) [sampleUser] (some "b@x.com") (some "pw")).message ∧
    (login (fun p h => p == h) [sampleUser] (some "a@x.com") (some "wrong")).field =
      some "password" ∧
    (login (fun p h => p == h) [sampleUser] (some "b@x.com") (some "pw")).field =
      some "email" :=
  login_wrong_password_matches_unknown_email (fun p h => p == h) [sampleUser]
    "a@x.com" "wrong" "b@x.com" "pw" sampleUser (by decide) (by decide) (by decide)
    (by decide) (by decide) (by decide) (by decide) (by decide)

/-- C7: a registration with a nonempty email and a password shorter than
6 characters (length 5 in particular) fails with a 400 whose `field` is
`'password'` and creates no user; with a 6-character password and an
email not already taken it succeeds with a 201 and appends the new user
to the store. -/
theorem register_password_length_validation (hash : String → String) (db : List User)
    (name : Option String) (e p₅ p₆ : String)
    (he : e ≠ "") (h₅ : p₅.length < 6) (h₆ : p₆.length = 6)
    (hfree : db.any (fun u => u.email == toLowerCase e) = false) :
    (register hash db { name := name, email := some e, password := some p₅ }).1.status = 400 ∧
    (register hash db { name := name, email := some e, password := some p₅ }).1.field =
      some "password" ∧
    (register hash db { name := name, email := some e, password := some p₅ }).2 = db ∧
    (register hash db { name := name, email := some e, password := some p₆ }).1.status = 201 ∧
    (register hash db { name := name, email := some e, password := some p₆ }).1.success =
      some true ∧
    (register hash db { name := name, email := some e, password := some p₆ }).2 =
      db ++ [{ name := truthyGetD name (localPart e), email := toLowerCase e,
               password := hash p₆, role := "user", googleId := none, picture := none,
               isActive := true }] := by
  have hp₆ : p₆ ≠ "" := by
    intro h
    rw [h] at h₆
    simp at h₆
  have hlen₆ : ¬ p₆.length < 6 := by omega
  by_cases hp₅ : p₅ = "" <;>
    simp [register, truthyStr, truthyGetD, he, hp₅, hp₆, h₅, hlen₆, hfree, roleAccepted]

/-- Witness for C7: password `"short"` (length 5) is rejected with field
`'password'`, password `"secret"` (length 6) registers the user. -/
theorem register_password_length_validation_witness :
    (register (fun s => s) [] { email := some "a@x.com", password := some "short" }).1.status =
      400 ∧
    (register (fun s => s) [] { email := some "a@x.com", password := some "short" }).1.field =
      some "password" ∧
    (register (fun s => s) [] { email := some "a@x.com", password := some "short" }).2 = [] ∧
    (register (fun s => s) [] { email := some "a@x.com", password := some "secret" }).1.status =
      201 ∧
    (register (fun s => s) [] { email := some "a@x.com", password := some "secret" }).1.success =
      some true ∧
    (register (fun s => s) [] { email := some "a@x.com", password := some "secret" }).2 =
      [{ name := truthyGetD none (localPart "a@x.com"), email := toLowerCase "a@x.com",
         password := "secret", role := "user", googleId := none, picture := none,
         isActive := true }] :=
  register_password_length_validation (fun s => s) [] none "a@x.com" "short" "secret"
    (by decide) (by decide) (by decide) (by decide)

/-- Counterexample to C9: supplying `role` as the empty string is not
omitting it, yet the created user's role is the default `'user'` — the
`role: role || 'user'` truthiness default also fires on `''`. -/
theorem register_role_empty_string_counterexample :
    ({ name := none, email := some "a@x.com", password := some "secret1",
       role := some "" } : RegisterRequest).role ≠ none ∧
    (register (fun s => s) []
      { name := none, email := some "a@x.com", password := some "secret1",
        role := some "" }).2.map (fun u => u.role) = ["user"] ∧
    ("user" : String) ≠ "" := by decide

/-- C9 (amended): the created user's role is taken directly from the
request body whenever the supplied value is truthy (and schema-accepted;
`'admin'` in particular, so the public register endpoint can create an
admin user), and defaults to `'user'` when the body omits `role` or
supplies a falsy value such as the empty string. -/
theorem register_role_taken_from_body (hash : String → String) (db : List User)
    (name : Option String) (e p : String) (role : Option String)
    (he : e ≠ "") (hp : ¬ p.length < 6)
    (hfree : db.any (fun u => u.email == toLowerCase e) = false)
    (hacc : roleAccepted (truthyGetD role "user") = true) :
    (register hash db { name := name, email := some e, password := some p,
                        role := role }).1.status = 201 ∧
    (register hash db { name := name, email := some e, password := some p,
                        role := role }).2 =
      db ++ [{ name := truthyGetD name (localPart e), email := toLowerCase e,
               password := hash p, role := truthyGetD role "user", googleId := none,
               picture := none, isActive := true }] ∧
    (role = some "admin" → truthyGetD role "user" = "admin") ∧
    ((role = none ∨ role = some "") → truthyGetD role "user" = "user") := by
  have hp' : p ≠ "" := by
    intro h
    rw [h] at hp
    simp at hp
  refine ⟨?_, ?_, ?_, ?_⟩
  · simp [register, truthyStr, he, hp', hp, hfree, hacc]
  · simp [register, truthyStr, he, hp', hp, hfree, hacc]
  · intro h
    rw [h]
    rfl
  · rintro (h | h) <;> rw [h] <;> rfl

/-- Witness for C9 (amended): registering with `role := 'admin'` on an
empty store creates an admin user through the public endpoint. -/
theorem register_role_taken_from_body_witness :
    (register (fun s => s) []
      { name := none, email := some "a@x.com", password := some "secret1",
        role := some "admin" }).1.status = 201 ∧
    (register (fun s => s) []
      { name := none, email := some "a@x.com", password := some "secret1",
        role := some "admin" }).2 =
      [{ name := truthyGetD none (localPart "a@x.com"), email := toLowerCase "a@x.com",
         password := "secret1", role := truthyGetD (some "admin") "user", googleId := none,
         picture := none, isActive := true }] ∧
    (some "admin" = some "admin" → truthyGetD (some "admin") "user" = "admin") ∧
    ((some "admin" = none ∨ some "admin" = some "") →
      truthyGetD (some "admin") "user" = "user") :=
  register_role_taken_from_body (fun s => s) [] none "a@x.com" "secret1" (some "admin")
    (by decide) (by decide) (by decide) (by decide)

/-- `generateToken` (`authRoutes.js` lines 8-14) signs with
`process.env.JWT_SECRET` and has no fallback: when the variable is unset
the signing secret is absent. -/
def generateTokenSecret (jwtSecretEnv : Option String) : Option String := jwtSecretEnv

/-- The auth middleware (`auth.js` line 13) verifies with
`process.env.JWT_SECRET || 'your-secret-key'`: a JavaScript `||`
default, so the fallback also fires when the variable is set to the
empty string. -/
def authMiddlewareSecret (jwtSecretEnv : Option String) : Option String :=
  some (truthyGetD jwtSecretEnv "your-secret-key")

/-- Counterexample to C8: with the configured secret unset the signing
side has no secret while the verifying middleware falls back to the
fixed development value, and with the secret set to the empty string the
signer uses `''` while the middleware again falls back — in both
configurations the two secrets differ. -/
theorem token_secret_unset_counterexample :
    generateTokenSecret none ≠ authMiddlewareSecret none ∧
    generateTokenSecret (some "") ≠ authMiddlewareSecret (some "") := by decide

/-- C8 (amended): when the configured secret is set to a nonempty value,
token signing and verification use the same secret; when it is unset or
empty only the middleware falls back to `'your-secret-key'` —
`generateToken` has no fallback and signs with the configured value
as-is. -/
theorem token_secret_agreement (s : String) :
    (s ≠ "" → generateTokenSecret (some s) = authMiddlewareSecret (some s)) ∧
    generateTokenSecret none = none ∧
    authMiddlewareSecret none = some "your-secret-key" ∧
    generateTokenSecret (some "") = some "" ∧
    authMiddlewareSecret (some "") = some "your-secret-key" := by
  refine ⟨?_, rfl, rfl, rfl, rfl⟩
  intro h
  simp [generateTokenSecret, authMiddlewareSecret, truthyGetD, h]

/-- Witness for C8 (amended) at a concrete nonempty secret. -/
theorem token_secret_agreement_witness :
    generateTokenSecret (some "mysecret") = authMiddlewareSecret (some "mysecret") :=
  (token_secret_agreement "mysecret").1 (by decide)

end ECommerce
